import Mathlib

/-!
Verification of the two Python bridge scripts of the whisperapi repository:
`scripts/faster_whisper_bridge.py` (backend A) and
`scripts/insanely_fast_whisper_bridge.py` (backend B).

Modelling conventions:
* Python strings are `List Char`; `str.strip()` is `pyStrip`, the no-argument
  `str.split()` is `pySplit`, both using `Char.isWhitespace`.
* Python floats (timestamps, probabilities, durations) are modelled as exact
  rationals `ℚ`; `round(x, 2)` is `pyRound2`, rounding to the nearest hundredth
  with ties going to the even multiple, as Python's `round` does.
* The external model libraries (faster_whisper, transformers/librosa) are
  modelled as an oracle function from the effective call arguments (the
  language handed to the backend and the task string) to `Except`: `.error e`
  is an exception with message `e` raised anywhere inside the `try` block,
  `.ok` carries the backend-native output structures.  The remaining tuning
  arguments (model path, device, compute type / dtype, batch size, chunk
  length) only parametrise the oracle and are carried opaquely by the CLI
  argument records.
* A printed JSON document is an association list `List (String × JValue)`
  mirroring the Python dict displays returned by `transcribe_audio`.
* `os.path.exists` is an oracle `List Char → Bool` over paths.
-/

/-- Python `str` as a list of characters. -/
abbrev PyStr := List Char

/-- Whitespace test used by Python's `str.strip()` / `str.split()`. -/
def isSpace (c : Char) : Bool := c.isWhitespace

/-- Python `s.strip()`: remove trailing, then leading, whitespace. -/
def pyStrip (s : PyStr) : PyStr :=
  ((s.reverse.dropWhile isSpace).reverse).dropWhile isSpace

/-- Helper for `pySplit`: scan the characters, `cur` holding the characters
of the word currently being read, in reverse. -/
def pySplitGo (cur : PyStr) : PyStr → List PyStr
  | [] => if cur.isEmpty then [] else [cur.reverse]
  | c :: cs =>
    if isSpace c then
      if cur.isEmpty then pySplitGo [] cs else cur.reverse :: pySplitGo [] cs
    else pySplitGo (c :: cur) cs

/-- Python `s.split()` with no argument: split on runs of whitespace,
discarding empty pieces. -/
def pySplit (s : PyStr) : List PyStr := pySplitGo [] s

/-- Round a rational to the nearest integer, ties to the even integer
(Python's round-half-even). -/
def pyRoundHalfEven (q : ℚ) : ℤ :=
  let f := ⌊q⌋
  let r := q - f
  if r < 1/2 then f
  else if 1/2 < r then f + 1
  else if f % 2 = 0 then f else f + 1

/-- Python `round(x, 2)`: round to the nearest hundredth (half to even). -/
def pyRound2 (q : ℚ) : ℚ := (pyRoundHalfEven (q * 100) : ℚ) / 100

/-- The `task` argument handed to the backend:
`"translate" if translate else "transcribe"` (identical in both scripts). -/
def taskOf (translate : Bool) : PyStr :=
  if translate then "translate".toList else "transcribe".toList

/-- JSON-like values as produced by the scripts' dict displays. -/
inductive JValue where
  | null : JValue
  | num : ℚ → JValue
  | str : PyStr → JValue
  | arr : List JValue → JValue
  | obj : List (String × JValue) → JValue

/-- Process outcome of a `main` run: the printed JSON object and exit code. -/
structure MainOutcome where
  output : List (String × JValue)
  exitCode : Nat

namespace insanely_fast_whisper_bridge

/-- One entry of the `chunks` list returned by the transformers pipeline:
a text plus an optional `(start, end)` timestamp pair, each side optional
(`None`).  `timestamp = none` covers both a missing `"timestamp"` key and a
falsy (`None`) timestamp value, which the code treats identically. -/
structure Chunk where
  text : PyStr
  timestamp : Option (Option ℚ × Option ℚ)
deriving DecidableEq

/-- One entry appended to the `words` list by backend B. -/
structure WordEntry where
  word : PyStr
  start : ℚ
  «end» : ℚ
  probability : ℚ
deriving DecidableEq

/-- Backend-native data available after a successful `try` body: the length
of the librosa-decoded sample array (at 16000 Hz), the pipeline's `"text"`,
and its `"chunks"` (`result.get("chunks", [])`). -/
structure BRunData where
  audioLen : Nat
  text : PyStr
  chunks : List Chunk
deriving DecidableEq

/-- The `language` entry of `generate_kwargs`:
`language if language and language != "auto" else None`. -/
def effLang (language : Option PyStr) : Option PyStr :=
  match language with
  | none => none
  | some s => if s ≠ [] ∧ s ≠ "auto".toList then some s else none

/-- Mirrors `detected_language = language if language and language != "auto" else "pt"`. -/
def detectedLanguage (language : Option PyStr) : PyStr :=
  match language with
  | none => "pt".toList
  | some s => if s ≠ [] ∧ s ≠ "auto".toList then s else "pt".toList

/-- The body of the per-chunk loop: the word entries one chunk contributes.
Mirrors lines 101-118 of `insanely_fast_whisper_bridge.py`: chunks without a
(truthy) timestamp are skipped; the stripped text is whitespace-split; if the
split is nonempty and both timestamp components are non-`None`, the chunk
duration (`end - start` when `end` is truthy, else `0`) is divided evenly and
each word `i` gets `[start + i*d, start + (i+1)*d)` rounded to 2 decimals with
constant probability `0.95`. -/
def chunkToWords (c : Chunk) : List WordEntry :=
  match c.timestamp with
  | none => []
  | some (st, et) =>
    let chunk_words := pySplit (pyStrip c.text)
    match chunk_words, st, et with
    | [], _, _ => []
    | _, none, _ => []
    | _, _, none => []
    | ws@(_ :: _), some start_time, some end_time =>
      let duration : ℚ := if end_time ≠ 0 then end_time - start_time else 0
      let word_duration : ℚ :=
        if ws ≠ [] then duration / (ws.length : ℚ) else 0
      ws.enum.map (fun p =>
        let word_start := start_time + (p.1 : ℚ) * word_duration
        let word_end := word_start + word_duration
        { word := p.2
          start := pyRound2 word_start
          «end» := pyRound2 word_end
          probability := 19/20 })

/-- The full `words` accumulation loop (lines 99-118): empty unless `chunks`
is truthy and `return_timestamps` is set, otherwise each chunk appends its
`chunkToWords`. -/
def wordsOf (chunks : List Chunk) (return_timestamps : Bool) : List WordEntry :=
  if ¬chunks.isEmpty ∧ return_timestamps then
    chunks.foldl (fun acc c => acc ++ chunkToWords c) []
  else []

/-- JSON shape of one `words` entry. -/
def wordEntryToJ (w : WordEntry) : JValue :=
  .obj [("word", .str w.word), ("start", .num w.start),
        ("end", .num w.«end»), ("probability", .num w.probability)]

/-- JSON shape of a raw chunk as passed through in the `chunks` field. -/
def chunkToJ (c : Chunk) : JValue :=
  .obj ([("text", .str c.text)] ++
    (match c.timestamp with
     | none => []
     | some (s, e) =>
       [("timestamp", .arr [(match s with | none => .null | some q => .num q),
                            (match e with | none => .null | some q => .num q)])]))

/-- Function `transcribe_audio` of `insanely_fast_whisper_bridge.py`.  The `backend`
oracle stands for device resolution, model/processor loading, pipeline
construction, librosa decoding and the pipeline call; it receives the
`generate_kwargs` language and task.  `.error e` is any exception raised in
the `try` block, turned into `{"error": str(e)}`. -/
def transcribe_audio (language : Option PyStr) (translate : Bool)
    (return_timestamps : Bool)
    (backend : Option PyStr → PyStr → Except PyStr BRunData) :
    List (String × JValue) :=
  match backend (effLang language) (taskOf translate) with
  | .error e => [("error", .str e)]
  | .ok r =>
    let text := pyStrip r.text
    let chunks := r.chunks
    let words := wordsOf chunks return_timestamps
    let duration : ℚ := (r.audioLen : ℚ) / 16000
    [("text", .str text),
     ("language", .str (detectedLanguage language)),
     ("language_probability", .num (19/20)),
     ("duration", .num duration),
     ("words", .arr (words.map wordEntryToJ)),
     ("chunks", .arr (chunks.map chunkToJ))]

/-- Parsed CLI arguments of backend B.  The tuning fields are carried for
completeness; they only parametrise the backend oracle. -/
structure Args where
  model : PyStr
  audio : PyStr
  device : PyStr
  torch_dtype : PyStr
  language : Option PyStr
  translate : Bool
  batch_size : Nat
  chunk_length_s : Nat
  return_timestamps : Bool
deriving DecidableEq

/-- Function `main` of `insanely_fast_whisper_bridge.py`: if the audio path does not
exist, print a JSON error and exit 1 without touching the backend; otherwise
transcribe, print the result and exit 0. -/
def main (exists_ : PyStr → Bool) (args : Args)
    (backend : Option PyStr → PyStr → Except PyStr BRunData) : MainOutcome :=
  if ¬exists_ args.audio then
    { output := [("error", .str ("Audio file not found: ".toList ++ args.audio))]
      exitCode := 1 }
  else
    { output := transcribe_audio args.language args.translate
        args.return_timestamps backend
      exitCode := 0 }

end insanely_fast_whisper_bridge

namespace faster_whisper_bridge

/-- One word reported by the faster-whisper model inside a segment. -/
structure FWWord where
  word : PyStr
  start : ℚ
  «end» : ℚ
  probability : ℚ
deriving DecidableEq

/-- One transcription segment reported by faster-whisper: its text and an
optional word list (`segment.words`; `none` models a missing or `None`
attribute, failing the `hasattr(segment, "words") and segment.words`
truthiness check together with the empty list). -/
structure Segment where
  text : PyStr
  words : Option (List FWWord)
deriving DecidableEq

/-- The `info` object returned next to the segments. -/
structure TranscriptionInfo where
  language : PyStr
  language_probability : ℚ
  duration : ℚ
deriving DecidableEq

/-- The `language` argument passed to `model.transcribe`:
`language if language != "auto" else None`. -/
def effLang (language : Option PyStr) : Option PyStr :=
  if language = some "auto".toList then none else language

/-- JSON shape of one `words` entry (lines 59-64). -/
def fwWordToJ (w : FWWord) : JValue :=
  .obj [("word", .str w.word), ("start", .num w.start),
        ("end", .num w.«end»), ("probability", .num w.probability)]

/-- The `full_text` accumulation loop: each segment appends
`segment.text + " "`. -/
def full_textOf (segments : List Segment) : PyStr :=
  segments.foldl (fun acc s => acc ++ s.text ++ [' ']) []

/-- The `words` accumulation loop: for each segment whose `words` attribute is
present and truthy, append one JSON entry per word in order. -/
def fwWordsOf (segments : List Segment) : List JValue :=
  segments.foldl (fun acc s =>
    match s.words with
    | none => acc
    | some ws => if ¬ws.isEmpty then acc ++ ws.map fwWordToJ else acc) []

/-- Function `transcribe_audio` of `faster_whisper_bridge.py`.  The `backend` oracle
stands for `WhisperModel` construction plus `model.transcribe`; it receives
the effective language and the task string, returning the segments and info
(or an exception message for anything raised inside the `try` block). -/
def transcribe_audio (language : Option PyStr) (translate : Bool)
    (backend : Option PyStr → PyStr → Except PyStr (List Segment × TranscriptionInfo)) :
    List (String × JValue) :=
  match backend (effLang language) (taskOf translate) with
  | .error e => [("error", .str e)]
  | .ok (segments, info) =>
    [("text", .str (pyStrip (full_textOf segments))),
     ("language", .str info.language),
     ("language_probability", .num info.language_probability),
     ("duration", .num info.duration),
     ("words", .arr (fwWordsOf segments))]

/-- Parsed CLI arguments of backend A. -/
structure Args where
  model : PyStr
  audio : PyStr
  device : PyStr
  compute_type : PyStr
  language : Option PyStr
  translate : Bool
deriving DecidableEq

/-- Function `main` of `faster_whisper_bridge.py`: missing audio path prints a JSON
error and exits 1 before the backend is touched; otherwise the transcription
result is printed and the process exits 0. -/
def main (exists_ : PyStr → Bool) (args : Args)
    (backend : Option PyStr → PyStr → Except PyStr (List Segment × TranscriptionInfo)) :
    MainOutcome :=
  if ¬exists_ args.audio then
    { output := [("error", .str ("Audio file not found: ".toList ++ args.audio))]
      exitCode := 1 }
  else
    { output := transcribe_audio args.language args.translate backend
      exitCode := 0 }

end faster_whisper_bridge

/-! ## Helper lemmas -/

/-- A trailing space does not change the result of `str.strip()`. -/
theorem pyStrip_append_space (s : PyStr) : pyStrip (s ++ [' ']) = pyStrip s := by
  simp [pyStrip, List.reverse_append, List.dropWhile, isSpace]

/-- Mapping a function of the element only over `enumFrom` forgets the index. -/
theorem enumFrom_map_snd {α β : Type} (g : α → β) :
    ∀ (n : Nat) (l : List α), (List.enumFrom n l).map (fun p => g p.2) = l.map g
  | _, [] => rfl
  | n, a :: l => by
    simp only [List.enumFrom, List.map_cons, List.cons.injEq, true_and]
    exact enumFrom_map_snd g (n + 1) l

/-- Mapping a function of the element only over `enum` forgets the index. -/
theorem enum_map_snd {α β : Type} (g : α → β) (l : List α) :
    l.enum.map (fun p => g p.2) = l.map g :=
  enumFrom_map_snd g 0 l

/-- A `foldl` that appends a contribution per element is `flatten` of `map`. -/
theorem foldl_append_eq_flatten {α β : Type} (f : α → List β) :
    ∀ (l : List α) (acc : List β),
      l.foldl (fun a x => a ++ f x) acc = acc ++ (l.map f).flatten
  | [], acc => by simp
  | x :: l, acc => by
    simp only [List.foldl_cons, List.map_cons, List.flatten_cons,
      foldl_append_eq_flatten f l (acc ++ f x), List.append_assoc]

namespace insanely_fast_whisper_bridge

/-- Conclusion of the (amended) claim C1: for a chunk with fully specified
timestamp `(s, e)` whose stripped text splits into `n` words, the emitted
entries are, in order, the `n` words, the `i`-th carrying probability `0.95`
and the 2-decimal roundings of the exact even subdivision points
`s + i*d` and `s + (i+1)*d` with `d = (e - s) / n`; before rounding each word
has duration exactly `d`, each word's end is the next word's start, and the
subdivision covers exactly `[s, e)` since `s + n*d = e`. -/
def evenDivisionProp (s e : ℚ) (txt : PyStr) : Prop :=
  let ws := pySplit (pyStrip txt)
  let n := ws.length
  let d : ℚ := (e - s) / (n : ℚ)
  let out := chunkToWords ⟨txt, some (some s, some e)⟩
  out.length = n ∧
  (∀ i, i < n → out.getD i ⟨[], 0, 0, 0⟩ =
    { word := ws.getD i []
      start := pyRound2 (s + (i : ℚ) * d)
      «end» := pyRound2 (s + ((i : ℚ) + 1) * d)
      probability := 19/20 }) ∧
  s + (n : ℚ) * d = e

end insanely_fast_whisper_bridge

/-- Evaluation of `chunkToWords` on a fully timestamped chunk with truthy end
and a nonempty split: the even-subdivision map, written with the loop's own
`start + i * word_duration` arithmetic. -/
theorem insanely_fast_whisper_bridge.chunkToWords_eq_map (s e : ℚ) (txt : PyStr)
    (a : PyStr) (as : List PyStr) (he : e ≠ 0)
    (hws : pySplit (pyStrip txt) = a :: as) :
    chunkToWords ⟨txt, some (some s, some e)⟩ =
      (a :: as).enum.map (fun p =>
        { word := p.2
          start := pyRound2 (s + (p.1 : ℚ) * ((e - s) / ((a :: as).length : ℚ)))
          «end» := pyRound2 (s + (p.1 : ℚ) * ((e - s) / ((a :: as).length : ℚ)) +
            (e - s) / ((a :: as).length : ℚ))
          probability := 19/20 }) := by
  simp only [chunkToWords, hws]
  simp [he]

/-- C1 (amended): in backend B's word-timestamp reconstruction, for every
chunk whose timestamp is a pair `(s, e)` with both components non-`None` and
`e` truthy (nonzero), and whose text splits on whitespace into `n ≥ 1` words,
the `n` emitted entries each get probability `0.95` and the 2-decimal
roundings of the even subdivision of `[s, e)` into `n` intervals of duration
`(e - s) / n`, sequential and non-overlapping (word `i`'s end point is word
`i + 1`'s start point) and covering exactly `[s, e)`. -/
theorem C1_even_division (s e : ℚ) (txt : PyStr) (he : e ≠ 0)
    (hn : 1 ≤ (pySplit (pyStrip txt)).length) :
    insanely_fast_whisper_bridge.evenDivisionProp s e txt := by
  obtain ⟨a, as, hws⟩ : ∃ a as, pySplit (pyStrip txt) = a :: as := by
    cases h : pySplit (pyStrip txt) with
    | nil => rw [h] at hn; simp at hn
    | cons a as => exact ⟨a, as, rfl⟩
  have hout := insanely_fast_whisper_bridge.chunkToWords_eq_map s e txt a as he hws
  simp only [insanely_fast_whisper_bridge.evenDivisionProp, hws, hout]
  refine ⟨by simp [List.enum_length], ?_, ?_⟩
  · intro i hi
    have hi' : i < ((a :: as).enum.map (fun p =>
        ({ word := p.2
           start := pyRound2 (s + (p.1 : ℚ) * ((e - s) / ((a :: as).length : ℚ)))
           «end» := pyRound2 (s + (p.1 : ℚ) * ((e - s) / ((a :: as).length : ℚ)) +
             (e - s) / ((a :: as).length : ℚ))
           probability := 19/20 } : insanely_fast_whisper_bridge.WordEntry))).length := by
      simpa [List.enum_length] using hi
    rw [List.getD_eq_getElem _ _ hi', List.getElem_map, List.getElem_enum,
      List.getD_eq_getElem _ _ hi]
    simp only [insanely_fast_whisper_bridge.WordEntry.mk.injEq]
    exact ⟨trivial, trivial, congrArg pyRound2 (by ring), trivial⟩
  · have h0 : ((a :: as).length : ℚ) ≠ 0 := by
      exact_mod_cast (Nat.cast_ne_zero (R := ℚ)).mpr (by simp)
    field_simp

/-- Witness for C1 at the spec's example: chunk timestamp `(10.0, 13.0)`,
text `"a b c"`; the hypotheses hold and the even-division property follows. -/
theorem C1_even_division_witness :
    (13 : ℚ) ≠ 0 ∧ 1 ≤ (pySplit (pyStrip "a b c".toList)).length ∧
      insanely_fast_whisper_bridge.evenDivisionProp 10 13 "a b c".toList :=
  ⟨by norm_num, by decide, C1_even_division 10 13 "a b c".toList (by norm_num) (by decide)⟩

/-- Counterexample to C1 as literally stated: the chunk with timestamp
`(10.0, 0.0)` (both components non-`None`) and text `"a b c"` splits into
3 words, so the claim assigns each word duration `(0 - 10) / 3 ≠ 0`; the code,
whose `duration = end_time - start_time if end_time else 0` treats the falsy
end `0` as duration `0`, emits three words of duration `0`. -/
theorem C1_counterexample_zero_end :
    (insanely_fast_whisper_bridge.chunkToWords
        ⟨"a b c".toList, some (some 10, some 0)⟩).map
      (fun w => w.«end» - w.start) = [0, 0, 0] ∧ ((0 : ℚ) - 10) / 3 ≠ 0 := by
  constructor
  · norm_num +decide [insanely_fast_whisper_bridge.chunkToWords, pySplit, pySplitGo,
      pyStrip, isSpace, pyRound2, pyRoundHalfEven, List.enum, List.enumFrom]
  · norm_num

namespace insanely_fast_whisper_bridge

/-- Conclusion of claim C10: a chunk with timestamp `(s, 0)` yields one entry
per split word, each with `start = end = round(s, 2)` (zero duration). -/
def zeroEndProp (s : ℚ) (txt : PyStr) : Prop :=
  chunkToWords ⟨txt, some (some s, some 0)⟩ =
    (pySplit (pyStrip txt)).map (fun w =>
      { word := w, start := pyRound2 s, «end» := pyRound2 s, probability := 19/20 })

end insanely_fast_whisper_bridge

/-- C10: in backend B, for every chunk whose timestamp is `(s, 0)` with `s`
non-`None` and whose text splits into `n ≥ 1` words, the computed chunk
duration is `0`, so each of the `n` emitted entries gets
`start = end = round(s, 2)` rather than an even share of the interval from
`s` to `0`. -/
theorem C10_zero_end_zero_duration (s : ℚ) (txt : PyStr)
    (hn : 1 ≤ (pySplit (pyStrip txt)).length) :
    insanely_fast_whisper_bridge.zeroEndProp s txt := by
  obtain ⟨a, as, hws⟩ : ∃ a as, pySplit (pyStrip txt) = a :: as := by
    cases h : pySplit (pyStrip txt) with
    | nil => rw [h] at hn; simp at hn
    | cons a as => exact ⟨a, as, rfl⟩
  unfold insanely_fast_whisper_bridge.zeroEndProp
  simp only [insanely_fast_whisper_bridge.chunkToWords, hws]
  simp only [ne_eq, not_true_eq_false, if_false, reduceCtorEq, not_false_eq_true,
    if_true, zero_div, mul_zero, add_zero]
  rw [← enum_map_snd (fun w =>
    ({ word := w, start := pyRound2 s, «end» := pyRound2 s, probability := 19/20 }
      : insanely_fast_whisper_bridge.WordEntry)) (a :: as)]

/-- Witness for C10: chunk timestamp `(3.0, 0)` and text `"hi there"` give two
words, both `start = end = 3.0`. -/
theorem C10_zero_end_witness :
    1 ≤ (pySplit (pyStrip "hi there".toList)).length ∧
      insanely_fast_whisper_bridge.zeroEndProp 3 "hi there".toList :=
  ⟨by decide, C10_zero_end_zero_duration 3 "hi there".toList (by decide)⟩

/-- C6: in backend B, a chunk lacking a timestamp (missing `"timestamp"` key
or falsy value) contributes no entries to the `words` sequence: its own
contribution is empty, and removing it from any position of the chunk list
leaves the accumulated `words` unchanged (its words are dropped, not
substituted with zero timestamps). -/
theorem C6_no_timestamp_no_words (c : insanely_fast_whisper_bridge.Chunk)
    (h : c.timestamp = none) :
    insanely_fast_whisper_bridge.chunkToWords c = [] ∧
    ∀ (cs₁ cs₂ : List insanely_fast_whisper_bridge.Chunk) (rt : Bool),
      insanely_fast_whisper_bridge.wordsOf (cs₁ ++ c :: cs₂) rt =
        insanely_fast_whisper_bridge.wordsOf (cs₁ ++ cs₂) rt := by
  have h1 : insanely_fast_whisper_bridge.chunkToWords c = [] := by
    simp [insanely_fast_whisper_bridge.chunkToWords, h]
  have wordsOf_eq : ∀ (cs : List insanely_fast_whisper_bridge.Chunk) (rt : Bool),
      insanely_fast_whisper_bridge.wordsOf cs rt =
        if rt then (cs.map insanely_fast_whisper_bridge.chunkToWords).flatten
        else [] := by
    intro cs rt
    unfold insanely_fast_whisper_bridge.wordsOf
    rw [foldl_append_eq_flatten]
    cases rt
    · simp
    · cases cs <;> simp
  refine ⟨h1, ?_⟩
  intro cs₁ cs₂ rt
  rw [wordsOf_eq, wordsOf_eq]
  cases rt
  · rfl
  · simp [h1, List.map_append, List.flatten_append]

/-- Witness for C6: a concrete timestampless chunk between two timestamped
ones changes nothing in the words list. -/
theorem C6_no_timestamp_witness :
    (insanely_fast_whisper_bridge.Chunk.mk "lost words".toList none).timestamp = none ∧
    insanely_fast_whisper_bridge.chunkToWords
      (insanely_fast_whisper_bridge.Chunk.mk "lost words".toList none) = [] ∧
    insanely_fast_whisper_bridge.wordsOf
        ([⟨"a".toList, some (some 0, some 1)⟩] ++
          insanely_fast_whisper_bridge.Chunk.mk "lost words".toList none ::
            [⟨"b".toList, some (some 1, some 2)⟩]) true =
      insanely_fast_whisper_bridge.wordsOf
        ([⟨"a".toList, some (some 0, some 1)⟩] ++ [⟨"b".toList, some (some 1, some 2)⟩])
        true := by
  refine ⟨rfl, ?_, ?_⟩
  · exact (C6_no_timestamp_no_words _ rfl).1
  · exact (C6_no_timestamp_no_words _ rfl).2 _ _ _

/-- C2: for every invocation of either adapter where the `--audio` path does
not exist, the process prints a JSON object containing the key `"error"` and
exits with code 1; the outcome is the same for every backend oracle, so no
model is loaded. -/
theorem C2_missing_audio_exit1 (fs : PyStr → Bool)
    (argsA : faster_whisper_bridge.Args) (argsB : insanely_fast_whisper_bridge.Args)
    (bA : Option PyStr → PyStr →
      Except PyStr (List faster_whisper_bridge.Segment ×
        faster_whisper_bridge.TranscriptionInfo))
    (bB : Option PyStr → PyStr → Except PyStr insanely_fast_whisper_bridge.BRunData)
    (hA : fs argsA.audio = false) (hB : fs argsB.audio = false) :
    ((faster_whisper_bridge.main fs argsA bA).exitCode = 1 ∧
      ("error", JValue.str ("Audio file not found: ".toList ++ argsA.audio)) ∈
        (faster_whisper_bridge.main fs argsA bA).output ∧
      ∀ bA', faster_whisper_bridge.main fs argsA bA =
        faster_whisper_bridge.main fs argsA bA') ∧
    ((insanely_fast_whisper_bridge.main fs argsB bB).exitCode = 1 ∧
      ("error", JValue.str ("Audio file not found: ".toList ++ argsB.audio)) ∈
        (insanely_fast_whisper_bridge.main fs argsB bB).output ∧
      ∀ bB', insanely_fast_whisper_bridge.main fs argsB bB =
        insanely_fast_whisper_bridge.main fs argsB bB') := by
  refine ⟨⟨?_, ?_, ?_⟩, ⟨?_, ?_, ?_⟩⟩ <;>
    simp [faster_whisper_bridge.main, insanely_fast_whisper_bridge.main, hA, hB]

/-- Witness for C2: a concrete filesystem with no files, concrete arguments
and backends. -/
theorem C2_missing_audio_witness :
    ((fun (_ : PyStr) => false) "a.wav".toList = false) ∧
    (faster_whisper_bridge.main (fun _ => false)
        ⟨"m".toList, "a.wav".toList, "cpu".toList, "int8".toList, none, false⟩
        (fun _ _ => .error "x".toList)).exitCode = 1 ∧
    ("error", JValue.str ("Audio file not found: ".toList ++ "a.wav".toList)) ∈
      (faster_whisper_bridge.main (fun _ => false)
        ⟨"m".toList, "a.wav".toList, "cpu".toList, "int8".toList, none, false⟩
        (fun _ _ => .error "x".toList)).output ∧
    (insanely_fast_whisper_bridge.main (fun _ => false)
        ⟨"m".toList, "a.wav".toList, "auto".toList, "auto".toList, none, false, 24, 30, true⟩
        (fun _ _ => .error "x".toList)).exitCode = 1 ∧
    ("error", JValue.str ("Audio file not found: ".toList ++ "a.wav".toList)) ∈
      (insanely_fast_whisper_bridge.main (fun _ => false)
        ⟨"m".toList, "a.wav".toList, "auto".toList, "auto".toList, none, false, 24, 30, true⟩
        (fun _ _ => .error "x".toList)).output := by
  have h := C2_missing_audio_exit1 (fun _ => false)
    ⟨"m".toList, "a.wav".toList, "cpu".toList, "int8".toList, none, false⟩
    ⟨"m".toList, "a.wav".toList, "auto".toList, "auto".toList, none, false, 24, 30, true⟩
    (fun _ _ => .error "x".toList) (fun _ _ => .error "x".toList) rfl rfl
  exact ⟨rfl, h.1.1, h.1.2.1, h.2.1, h.2.2.1⟩

/-- C3: for every invocation of either adapter where the audio path exists
and the backend call raises an exception `e`, the exception is caught: the
adapter prints exactly the JSON object with single entry `"error": str(e)`
and the process exits with code 0. -/
theorem C3_exception_to_error_json (fs : PyStr → Bool)
    (argsA : faster_whisper_bridge.Args) (argsB : insanely_fast_whisper_bridge.Args)
    (bA : Option PyStr → PyStr →
      Except PyStr (List faster_whisper_bridge.Segment ×
        faster_whisper_bridge.TranscriptionInfo))
    (bB : Option PyStr → PyStr → Except PyStr insanely_fast_whisper_bridge.BRunData)
    (eA eB : PyStr)
    (hA : fs argsA.audio = true) (hB : fs argsB.audio = true)
    (hbA : bA (faster_whisper_bridge.effLang argsA.language) (taskOf argsA.translate) =
      .error eA)
    (hbB : bB (insanely_fast_whisper_bridge.effLang argsB.language)
      (taskOf argsB.translate) = .error eB) :
    faster_whisper_bridge.main fs argsA bA =
      ⟨[("error", JValue.str eA)], 0⟩ ∧
    insanely_fast_whisper_bridge.main fs argsB bB =
      ⟨[("error", JValue.str eB)], 0⟩ := by
  constructor
  · simp [faster_whisper_bridge.main, faster_whisper_bridge.transcribe_audio, hA, hbA]
  · simp [insanely_fast_whisper_bridge.main,
      insanely_fast_whisper_bridge.transcribe_audio, hB, hbB]

/-- Witness for C3: a filesystem containing the audio file and backends that
always raise. -/
theorem C3_exception_witness :
    faster_whisper_bridge.main (fun _ => true)
        ⟨"m".toList, "a.wav".toList, "cpu".toList, "int8".toList, none, false⟩
        (fun _ _ => .error "boom".toList) =
      ⟨[("error", JValue.str "boom".toList)], 0⟩ ∧
    insanely_fast_whisper_bridge.main (fun _ => true)
        ⟨"m".toList, "a.wav".toList, "auto".toList, "auto".toList, none, false, 24, 30, true⟩
        (fun _ _ => .error "oom".toList) =
      ⟨[("error", JValue.str "oom".toList)], 0⟩ :=
  C3_exception_to_error_json (fun _ => true) _ _ _ _ "boom".toList "oom".toList
    rfl rfl rfl rfl

namespace faster_whisper_bridge

/-- Spec-side definition for the refinement claim C5, following the spec's
words: "concatenates segment text with single-space separation". -/
def joinSpaceSep : List PyStr → PyStr
  | [] => []
  | [t] => t
  | t :: ts => t ++ [' '] ++ joinSpaceSep ts

/-- Spec-side text: segment texts joined with single spaces, then trimmed. -/
def textSpec (segments : List Segment) : PyStr :=
  pyStrip (joinSpaceSep (segments.map Segment.text))

/-- The words one segment contributes: the exact model-reported values, when
the segment has words. -/
def segWordsJ (s : Segment) : List JValue :=
  match s.words with
  | none => []
  | some ws => ws.map fwWordToJ

/-- Spec-side words: in segment order, one entry per word of each segment
that has words. -/
def wordsSpec (segments : List Segment) : List JValue :=
  segments.flatMap segWordsJ

end faster_whisper_bridge

theorem joinSpaceSep_nil : faster_whisper_bridge.joinSpaceSep [] = [] := rfl

theorem joinSpaceSep_single (t : PyStr) :
    faster_whisper_bridge.joinSpaceSep [t] = t := rfl

theorem joinSpaceSep_cons (t t' : PyStr) (ts : List PyStr) :
    faster_whisper_bridge.joinSpaceSep (t :: t' :: ts) =
      t ++ [' '] ++ faster_whisper_bridge.joinSpaceSep (t' :: ts) := rfl

/-- The accumulated `full_textOf` is the concatenation of each segment text followed by one
space. -/
theorem full_textOf_eq_flatten (segs : List faster_whisper_bridge.Segment) :
    faster_whisper_bridge.full_textOf segs =
      (segs.map (fun s => s.text ++ [' '])).flatten := by
  have key : ∀ (l : List faster_whisper_bridge.Segment) (acc : PyStr),
      List.foldl (fun acc s => acc ++ s.text ++ [' ']) acc l =
        acc ++ (l.map (fun s => s.text ++ [' '])).flatten := by
    intro l
    induction l with
    | nil => intro acc; simp
    | cons x l ih =>
      intro acc
      rw [List.foldl_cons, ih]
      simp [List.append_assoc]
  simpa [faster_whisper_bridge.full_textOf] using key segs []

/-- Concatenating text-plus-space pieces is the single-space join followed by
one trailing space (when nonempty). -/
theorem flatten_append_space_eq_join (ts : List PyStr) :
    (ts.map (fun t => t ++ [' '])).flatten =
      faster_whisper_bridge.joinSpaceSep ts ++
        (if ts.isEmpty then [] else [' ']) := by
  induction ts with
  | nil => simp [joinSpaceSep_nil]
  | cons t ts ih =>
    cases ts with
    | nil => simp [joinSpaceSep_single]
    | cons t' ts' =>
      rw [List.map_cons, List.flatten_cons, ih, joinSpaceSep_cons]
      simp [List.append_assoc]

/-- The code's stripped accumulated text equals the spec-side trimmed
single-space join. -/
theorem pyStrip_full_textOf (segs : List faster_whisper_bridge.Segment) :
    pyStrip (faster_whisper_bridge.full_textOf segs) =
      faster_whisper_bridge.textSpec segs := by
  rw [full_textOf_eq_flatten]
  have hmap : List.map (fun s : faster_whisper_bridge.Segment => s.text ++ [' ']) segs =
      List.map (fun t => t ++ [' ']) (segs.map faster_whisper_bridge.Segment.text) := by
    rw [List.map_map]
    rfl
  rw [hmap, flatten_append_space_eq_join]
  unfold faster_whisper_bridge.textSpec
  cases segs with
  | nil => simp
  | cons x l => simp [pyStrip_append_space]

/-- The code's per-segment words fold equals the spec-side `flatMap`. -/
theorem fwWordsOf_eq_wordsSpec (segs : List faster_whisper_bridge.Segment) :
    faster_whisper_bridge.fwWordsOf segs = faster_whisper_bridge.wordsSpec segs := by
  have key : ∀ (l : List faster_whisper_bridge.Segment) (acc : List JValue),
      List.foldl (fun acc s =>
        match s.words with
        | none => acc
        | some ws => if ¬ws.isEmpty then
            acc ++ ws.map faster_whisper_bridge.fwWordToJ
          else acc) acc l =
        acc ++ faster_whisper_bridge.wordsSpec l := by
    intro l
    induction l with
    | nil => intro acc; simp [faster_whisper_bridge.wordsSpec]
    | cons x l ih =>
      intro acc
      rw [List.foldl_cons]
      cases hw : x.words with
      | none =>
        rw [ih]
        simp [faster_whisper_bridge.wordsSpec, List.flatMap_cons,
          faster_whisper_bridge.segWordsJ, hw]
      | some ws =>
        cases ws with
        | nil =>
          rw [ih]
          simp [faster_whisper_bridge.wordsSpec, List.flatMap_cons,
            faster_whisper_bridge.segWordsJ, hw]
        | cons w ws' =>
          rw [ih]
          simp [faster_whisper_bridge.wordsSpec, List.flatMap_cons,
            faster_whisper_bridge.segWordsJ, hw, List.append_assoc]
  simpa [faster_whisper_bridge.fwWordsOf] using key segs []

/-- C5: for every successful run of backend A, the output `"text"` is the
segments' texts concatenated in order with single-space separation and
trimmed, and the `"words"` sequence lists, in segment order, exactly the
word/start/end/probability values reported by the model for each word of each
segment that has words. -/
theorem C5_backendA_text_words (language : Option PyStr) (translate : Bool)
    (backend : Option PyStr → PyStr →
      Except PyStr (List faster_whisper_bridge.Segment ×
        faster_whisper_bridge.TranscriptionInfo))
    (segments : List faster_whisper_bridge.Segment)
    (info : faster_whisper_bridge.TranscriptionInfo)
    (h : backend (faster_whisper_bridge.effLang language) (taskOf translate) =
      .ok (segments, info)) :
    ("text", JValue.str (faster_whisper_bridge.textSpec segments)) ∈
      faster_whisper_bridge.transcribe_audio language translate backend ∧
    ("words", JValue.arr (faster_whisper_bridge.wordsSpec segments)) ∈
      faster_whisper_bridge.transcribe_audio language translate backend := by
  simp only [faster_whisper_bridge.transcribe_audio, h, pyStrip_full_textOf,
    fwWordsOf_eq_wordsSpec]
  constructor
  · exact List.mem_cons_self _ _
  · simp

/-- Witness for C5: a concrete successful backend-A run with two segments,
one carrying a word. -/
theorem C5_backendA_witness :
    ("text", JValue.str (faster_whisper_bridge.textSpec
        [⟨" Hello".toList, some [⟨"Hello".toList, 0, 1/2, 9/10⟩]⟩,
         ⟨" world".toList, none⟩])) ∈
      faster_whisper_bridge.transcribe_audio none false
        (fun _ _ => .ok ([⟨" Hello".toList, some [⟨"Hello".toList, 0, 1/2, 9/10⟩]⟩,
                          ⟨" world".toList, none⟩], ⟨"en".toList, 1/2, 7⟩)) ∧
    ("words", JValue.arr (faster_whisper_bridge.wordsSpec
        [⟨" Hello".toList, some [⟨"Hello".toList, 0, 1/2, 9/10⟩]⟩,
         ⟨" world".toList, none⟩])) ∈
      faster_whisper_bridge.transcribe_audio none false
        (fun _ _ => .ok ([⟨" Hello".toList, some [⟨"Hello".toList, 0, 1/2, 9/10⟩]⟩,
                          ⟨" world".toList, none⟩], ⟨"en".toList, 1/2, 7⟩)) := by
  have h := C5_backendA_text_words none false
    (fun _ _ => .ok ([⟨" Hello".toList, some [⟨"Hello".toList, 0, 1/2, 9/10⟩]⟩,
                      ⟨" world".toList, none⟩], ⟨"en".toList, 1/2, 7⟩))
    [⟨" Hello".toList, some [⟨"Hello".toList, 0, 1/2, 9/10⟩]⟩, ⟨" world".toList, none⟩]
    ⟨"en".toList, 1/2, 7⟩ rfl
  exact ⟨h.1, h.2⟩

/-- The C4 dichotomy on an output object: either the five result keys are
present (with `"words"` bound to a sequence) and `"error"` is absent, or
`"error"` is present and all result keys are absent — never both. -/
def resultOrErrorKeys (out : List (String × JValue)) : Prop :=
  ("error" ∉ out.map Prod.fst ∧ "text" ∈ out.map Prod.fst ∧
    "language" ∈ out.map Prod.fst ∧ "language_probability" ∈ out.map Prod.fst ∧
    "duration" ∈ out.map Prod.fst ∧ (∃ ws, ("words", JValue.arr ws) ∈ out)) ∨
  ("error" ∈ out.map Prod.fst ∧ "text" ∉ out.map Prod.fst ∧
    "language" ∉ out.map Prod.fst ∧ "language_probability" ∉ out.map Prod.fst ∧
    "duration" ∉ out.map Prod.fst ∧ "words" ∉ out.map Prod.fst)

/-- C4: on every successful run the printed object's keys are exactly the
result fields (so `"words"` is present, bound to a possibly empty sequence),
and on every run whatsoever the object carries either the result fields or
the key `"error"`, never both. -/
theorem C4_result_or_error (fs : PyStr → Bool)
    (argsA : faster_whisper_bridge.Args) (argsB : insanely_fast_whisper_bridge.Args)
    (bA : Option PyStr → PyStr →
      Except PyStr (List faster_whisper_bridge.Segment ×
        faster_whisper_bridge.TranscriptionInfo))
    (bB : Option PyStr → PyStr → Except PyStr insanely_fast_whisper_bridge.BRunData) :
    (∀ segments info, fs argsA.audio = true →
      bA (faster_whisper_bridge.effLang argsA.language) (taskOf argsA.translate) =
        .ok (segments, info) →
      (faster_whisper_bridge.main fs argsA bA).output.map Prod.fst =
        ["text", "language", "language_probability", "duration", "words"]) ∧
    (∀ r, fs argsB.audio = true →
      bB (insanely_fast_whisper_bridge.effLang argsB.language)
        (taskOf argsB.translate) = .ok r →
      (insanely_fast_whisper_bridge.main fs argsB bB).output.map Prod.fst =
        ["text", "language", "language_probability", "duration", "words", "chunks"]) ∧
    resultOrErrorKeys (faster_whisper_bridge.main fs argsA bA).output ∧
    resultOrErrorKeys (insanely_fast_whisper_bridge.main fs argsB bB).output := by
  refine ⟨?_, ?_, ?_, ?_⟩
  · intro segments info hfs hb
    simp [faster_whisper_bridge.main, hfs, faster_whisper_bridge.transcribe_audio, hb]
  · intro r hfs hb
    simp [insanely_fast_whisper_bridge.main, hfs,
      insanely_fast_whisper_bridge.transcribe_audio, hb]
  · by_cases hfs : fs argsA.audio = true
    · cases hb : bA (faster_whisper_bridge.effLang argsA.language)
        (taskOf argsA.translate) with
      | error e =>
        right
        simp [faster_whisper_bridge.main, hfs,
          faster_whisper_bridge.transcribe_audio, hb]
      | ok p =>
        obtain ⟨segments, info⟩ := p
        left
        refine ⟨?_, ?_, ?_, ?_, ?_, faster_whisper_bridge.fwWordsOf segments, ?_⟩ <;>
          simp [faster_whisper_bridge.main, hfs,
            faster_whisper_bridge.transcribe_audio, hb]
    · right
      have hfs' : fs argsA.audio = false := by
        cases h : fs argsA.audio
        · rfl
        · exact absurd h hfs
      simp [faster_whisper_bridge.main, hfs']
  · by_cases hfs : fs argsB.audio = true
    · cases hb : bB (insanely_fast_whisper_bridge.effLang argsB.language)
        (taskOf argsB.translate) with
      | error e =>
        right
        simp [insanely_fast_whisper_bridge.main, hfs,
          insanely_fast_whisper_bridge.transcribe_audio, hb]
      | ok r =>
        left
        refine ⟨?_, ?_, ?_, ?_, ?_,
          (insanely_fast_whisper_bridge.wordsOf r.chunks argsB.return_timestamps).map
            insanely_fast_whisper_bridge.wordEntryToJ, ?_⟩ <;>
          simp [insanely_fast_whisper_bridge.main, hfs,
            insanely_fast_whisper_bridge.transcribe_audio, hb]
    · right
      have hfs' : fs argsB.audio = false := by
        cases h : fs argsB.audio
        · rfl
        · exact absurd h hfs
      simp [insanely_fast_whisper_bridge.main, hfs']

/-- Witness for C4: a filesystem containing the file, and concrete succeeding
backends. -/
theorem C4_result_or_error_witness :
    (faster_whisper_bridge.main (fun _ => true)
        ⟨"m".toList, "a.wav".toList, "cpu".toList, "int8".toList, none, false⟩
        (fun _ _ => .ok ([], ⟨"en".toList, 1, 2⟩))).output.map Prod.fst =
      ["text", "language", "language_probability", "duration", "words"] ∧
    (insanely_fast_whisper_bridge.main (fun _ => true)
        ⟨"m".toList, "a.wav".toList, "auto".toList, "auto".toList, none, false, 24, 30, true⟩
        (fun _ _ => .ok ⟨16000, "hi".toList, []⟩)).output.map Prod.fst =
      ["text", "language", "language_probability", "duration", "words", "chunks"] ∧
    resultOrErrorKeys (faster_whisper_bridge.main (fun _ => true)
        ⟨"m".toList, "a.wav".toList, "cpu".toList, "int8".toList, none, false⟩
        (fun _ _ => .ok ([], ⟨"en".toList, 1, 2⟩))).output ∧
    resultOrErrorKeys (insanely_fast_whisper_bridge.main (fun _ => true)
        ⟨"m".toList, "a.wav".toList, "auto".toList, "auto".toList, none, false, 24, 30, true⟩
        (fun _ _ => .ok ⟨16000, "hi".toList, []⟩)).output := by
  have h := C4_result_or_error (fun _ => true)
    ⟨"m".toList, "a.wav".toList, "cpu".toList, "int8".toList, none, false⟩
    ⟨"m".toList, "a.wav".toList, "auto".toList, "auto".toList, none, false, 24, 30, true⟩
    (fun _ _ => .ok ([], ⟨"en".toList, 1, 2⟩))
    (fun _ _ => .ok ⟨16000, "hi".toList, []⟩)
  exact ⟨h.1 [] ⟨"en".toList, 1, 2⟩ rfl rfl, h.2.1 ⟨16000, "hi".toList, []⟩ rfl rfl,
    h.2.2.1, h.2.2.2⟩

/-- C7 (amended): backend A passes through the backend-reported language
(`info.language`, the requested language when one was given, otherwise the
model's detection); backend B emits the requested language when the
`--language` flag is truthy and not `auto`, and otherwise the hardcoded
constant `'pt'` — a placeholder, not a detected language. -/
theorem C7_language_field :
    (∀ (language : Option PyStr) (translate : Bool)
        (backend : Option PyStr → PyStr →
          Except PyStr (List faster_whisper_bridge.Segment ×
            faster_whisper_bridge.TranscriptionInfo))
        (segments : List faster_whisper_bridge.Segment)
        (info : faster_whisper_bridge.TranscriptionInfo),
      backend (faster_whisper_bridge.effLang language) (taskOf translate) =
        .ok (segments, info) →
      List.lookup "language"
          (faster_whisper_bridge.transcribe_audio language translate backend) =
        some (JValue.str info.language)) ∧
    (∀ (language : Option PyStr) (translate rt : Bool)
        (backend : Option PyStr → PyStr →
          Except PyStr insanely_fast_whisper_bridge.BRunData)
        (r : insanely_fast_whisper_bridge.BRunData),
      backend (insanely_fast_whisper_bridge.effLang language) (taskOf translate) =
        .ok r →
      List.lookup "language"
          (insanely_fast_whisper_bridge.transcribe_audio language translate rt backend) =
        some (JValue.str (insanely_fast_whisper_bridge.detectedLanguage language))) ∧
    insanely_fast_whisper_bridge.detectedLanguage none = "pt".toList ∧
    insanely_fast_whisper_bridge.detectedLanguage (some "auto".toList) = "pt".toList ∧
    (∀ s : PyStr, s ≠ [] → s ≠ "auto".toList →
      insanely_fast_whisper_bridge.detectedLanguage (some s) = s) := by
  refine ⟨?_, ?_, by decide, by decide, ?_⟩
  · intro language translate backend segments info h
    simp [faster_whisper_bridge.transcribe_audio, h, List.lookup]
  · intro language translate rt backend r h
    simp [insanely_fast_whisper_bridge.transcribe_audio, h, List.lookup]
  · intro s h1 h2
    simp [insanely_fast_whisper_bridge.detectedLanguage, h1, h2]
    intro hs
    exact (h2 hs).elim

/-- Witness for C7 (amended) at concrete inputs: backend A with a reported
language, backend B with an explicitly requested language. -/
theorem C7_language_field_witness :
    List.lookup "language"
        (faster_whisper_bridge.transcribe_audio none false
          (fun _ _ => .ok ([], ⟨"fr".toList, 1/2, 3⟩))) =
      some (JValue.str "fr".toList) ∧
    List.lookup "language"
        (insanely_fast_whisper_bridge.transcribe_audio (some "fr".toList) false true
          (fun _ _ => .ok ⟨16000, "salut".toList, []⟩)) =
      some (JValue.str (insanely_fast_whisper_bridge.detectedLanguage
        (some "fr".toList))) :=
  ⟨C7_language_field.1 none false _ [] ⟨"fr".toList, 1/2, 3⟩ rfl,
   C7_language_field.2.1 (some "fr".toList) false true _ ⟨16000, "salut".toList, []⟩ rfl⟩

/-- Counterexample to C7 as stated: with no `--language` given, backend B's
output `language` is the constant `"pt"` whatever the pipeline returns — it
is not the explicitly requested language (none was requested) and not a
language detected by the backend (the adapter never consults one; two runs
whose backend data differ entirely still both yield `"pt"`). -/
theorem C7_counterexample_hardcoded_pt :
    List.lookup "language"
        (insanely_fast_whisper_bridge.transcribe_audio none false true
          (fun _ _ => .ok ⟨16000, "ola".toList, []⟩)) =
      some (JValue.str "pt".toList) ∧
    List.lookup "language"
        (insanely_fast_whisper_bridge.transcribe_audio none false true
          (fun _ _ => .ok ⟨48000, "hello world".toList,
            [⟨"hello world".toList, some (some 0, some 2)⟩]⟩)) =
      some (JValue.str "pt".toList) := by
  constructor <;> rfl

/-- C8: `language_probability` always lies in `[0, 1]`: backend B emits the
fixed placeholder `0.95`, and backend A passes through the backend-reported
confidence, which is assumed to lie in `[0, 1]`. -/
theorem C8_language_probability_unit (language : Option PyStr)
    (translate rt : Bool)
    (bA : Option PyStr → PyStr →
      Except PyStr (List faster_whisper_bridge.Segment ×
        faster_whisper_bridge.TranscriptionInfo))
    (bB : Option PyStr → PyStr → Except PyStr insanely_fast_whisper_bridge.BRunData)
    (segments : List faster_whisper_bridge.Segment)
    (info : faster_whisper_bridge.TranscriptionInfo)
    (r : insanely_fast_whisper_bridge.BRunData)
    (hA : bA (faster_whisper_bridge.effLang language) (taskOf translate) =
      .ok (segments, info))
    (hB : bB (insanely_fast_whisper_bridge.effLang language) (taskOf translate) =
      .ok r)
    (h0 : 0 ≤ info.language_probability) (h1 : info.language_probability ≤ 1) :
    (List.lookup "language_probability"
        (insanely_fast_whisper_bridge.transcribe_audio language translate rt bB) =
      some (JValue.num (19/20)) ∧ (0 : ℚ) ≤ 19/20 ∧ (19 : ℚ)/20 ≤ 1) ∧
    (List.lookup "language_probability"
        (faster_whisper_bridge.transcribe_audio language translate bA) =
      some (JValue.num info.language_probability) ∧
      0 ≤ info.language_probability ∧ info.language_probability ≤ 1) := by
  refine ⟨⟨?_, by norm_num, by norm_num⟩, ⟨?_, h0, h1⟩⟩
  · simp [insanely_fast_whisper_bridge.transcribe_audio, hB, List.lookup]
  · simp [faster_whisper_bridge.transcribe_audio, hA, List.lookup]

/-- Witness for C8 at concrete inputs with backend-A confidence `7/10`. -/
theorem C8_language_probability_witness :
    (List.lookup "language_probability"
        (insanely_fast_whisper_bridge.transcribe_audio none false true
          (fun _ _ => .ok ⟨16000, "oi".toList, []⟩)) =
      some (JValue.num (19/20)) ∧ (0 : ℚ) ≤ 19/20 ∧ (19 : ℚ)/20 ≤ 1) ∧
    (List.lookup "language_probability"
        (faster_whisper_bridge.transcribe_audio none false
          (fun _ _ => .ok ([], ⟨"pt".toList, 7/10, 3⟩))) =
      some (JValue.num (7/10)) ∧ (0 : ℚ) ≤ 7/10 ∧ (7 : ℚ)/10 ≤ 1) :=
  C8_language_probability_unit none false true
    (fun _ _ => .ok ([], ⟨"pt".toList, 7/10, 3⟩))
    (fun _ _ => .ok ⟨16000, "oi".toList, []⟩)
    [] ⟨"pt".toList, 7/10, 3⟩ ⟨16000, "oi".toList, []⟩
    rfl rfl (by norm_num) (by norm_num)

/-- C9: for either adapter, passing `--language auto` produces exactly the
same outcome (printed object and exit code) as omitting `--language`, all
other inputs held equal: both map to `None` before the backend call, and in
backend B also to the same output `language`. -/
theorem C9_auto_equals_omitted :
    (∀ (fs : PyStr → Bool) (args : faster_whisper_bridge.Args)
        (b : Option PyStr → PyStr →
          Except PyStr (List faster_whisper_bridge.Segment ×
            faster_whisper_bridge.TranscriptionInfo)),
      faster_whisper_bridge.main fs {args with language := some "auto".toList} b =
        faster_whisper_bridge.main fs {args with language := none} b) ∧
    (∀ (fs : PyStr → Bool) (args : insanely_fast_whisper_bridge.Args)
        (b : Option PyStr → PyStr → Except PyStr insanely_fast_whisper_bridge.BRunData),
      insanely_fast_whisper_bridge.main fs {args with language := some "auto".toList} b =
        insanely_fast_whisper_bridge.main fs {args with language := none} b) := by
  have eA : faster_whisper_bridge.effLang (some ['a', 'u', 't', 'o']) = none := by
    decide
  have eAn : faster_whisper_bridge.effLang none = none := rfl
  have eB : insanely_fast_whisper_bridge.effLang (some ['a', 'u', 't', 'o']) =
      none := by decide
  have eBn : insanely_fast_whisper_bridge.effLang none = none := rfl
  have eB' : insanely_fast_whisper_bridge.detectedLanguage (some ['a', 'u', 't', 'o']) =
      ['p', 't'] := by decide
  have eBn' : insanely_fast_whisper_bridge.detectedLanguage none = ['p', 't'] := rfl
  constructor
  · intro fs args b
    by_cases hfs : fs args.audio = true
    · simp [faster_whisper_bridge.main, hfs, faster_whisper_bridge.transcribe_audio,
        eA, eAn]
    · have hfs' : fs args.audio = false := by
        cases h : fs args.audio
        · rfl
        · exact absurd h hfs
      simp [faster_whisper_bridge.main, hfs']
  · intro fs args b
    by_cases hfs : fs args.audio = true
    · simp [insanely_fast_whisper_bridge.main, hfs,
        insanely_fast_whisper_bridge.transcribe_audio, eB, eBn, eB', eBn']
    · have hfs' : fs args.audio = false := by
        cases h : fs args.audio
        · rfl
        · exact absurd h hfs
      simp [insanely_fast_whisper_bridge.main, hfs']
